import Mathlib

/-!
# Detour: the hook facade of `include/Detour/Detour.h`

A shallow embedding of the class template `Detour<ReturnType, Args...>` and of
the collaborators it drives.

* `Detour_i` holds the engine fields that `Detour.h` reads and writes
  (`_src`, `_dst`, `_detourlen`, `_withTrampoline`, `_type`, `_callee`).
* `Engine σ` stands for the two engine entry points `Detour_i::Commit` and
  `Detour_i::Restore`, whose bodies live in `Detour_i.h`.  The facade theorems
  quantify over every engine; `specEngine` is the engine described in the
  design document and is used for the memory level statements and for the
  concrete scenarios.
* `World σ` is the hook object together with everything outside of it: the
  engine private state and process memory (`machine`), a ghost log of the
  engine calls made by the facade (`calls`) and the registrations handed to
  `Loader::Wait` (`waits`).

Pointers are natural numbers, `NULL` is `0`.  `BYTE` values are natural
numbers; the code performs no arithmetic on them.
-/

namespace DetourBP

/-! ## Enumerations of `Detour.h` -/

/-- The value `DETOUR_NONE = 0` of `enum DETOUR_STATE`. -/
def DETOUR_NONE : Nat := 0

/-- The value `DETOUR_WAITING` of `enum DETOUR_STATE`. -/
def DETOUR_WAITING : Nat := 1

/-- The value `DETOUR_READY` of `enum DETOUR_STATE`. -/
def DETOUR_READY : Nat := 2

/-- The value `DETOUR_JMP = 0` of `enum DETOUR_TYPE`. -/
def DETOUR_JMP : Nat := 0

/-- The value `DETOUR_RET` of `enum DETOUR_TYPE`. -/
def DETOUR_RET : Nat := 1

/-- The value `DETOUR_MEM` of `enum DETOUR_TYPE`. -/
def DETOUR_MEM : Nat := 2

/-- The null pointer. -/
def NULL : Nat := 0

/-! ## The engine object as seen from `Detour.h` -/

/-- The fields of `Detour_i` that `Detour.h` touches, plus the argument count
handed to its constructor. -/
structure Detour_i where
  /-- Address of the function being intercepted. -/
  _src : Nat
  /-- Address of the replacement. -/
  _dst : Nat
  /-- The third constructor argument, `count_arg<complex_type>::value`. -/
  _arguments : Nat
  /-- Patch length, an `int`. -/
  _detourlen : Int
  /-- Whether a trampoline is built. -/
  _withTrampoline : Bool
  /-- Patch type, a `BYTE` holding a `DETOUR_TYPE`. -/
  _type : Nat
  /-- Address through which the original function is called. -/
  _callee : Nat
deriving DecidableEq

/-- Modelled from the spec: the constructor `Detour_i(src, dst, arguments)` is
declared in `Detour_i.h`, which is not part of the sources at hand.  It stores
its three arguments (the hook is created from the addresses known up front);
the remaining fields start cleared. -/
def Detour_i.new (src dst arguments : Nat) : Detour_i :=
  { _src := src, _dst := dst, _arguments := arguments,
    _detourlen := 0, _withTrampoline := false, _type := DETOUR_JMP, _callee := NULL }

/-- The object `Detour<ReturnType, Args...>`: its two private members. -/
structure Detour where
  /-- The owned engine, `Detour_i* _detourer`. -/
  _detourer : Detour_i
  /-- The lifecycle state, `BYTE _state`. -/
  _state : Nat
deriving DecidableEq

/-- The constructor `Detour()`; `argc` is `count_arg<complex_type>::value`. -/
def Detour.create (argc : Nat) : Detour :=
  { _state := DETOUR_NONE, _detourer := Detour_i.new NULL NULL argc }

/-- The constructor `Detour(BYTE* src, BYTE* dst)`. -/
def Detour.createWith (src dst argc : Nat) : Detour :=
  { _state := DETOUR_READY, _detourer := Detour_i.new src dst argc }

/-! ## The collaborators -/

/-- One call made by the facade into the engine, with the engine fields as
they were when the call was made. -/
inductive EngineCall where
  | commit (fields : Detour_i)
  | restore (fields : Detour_i)
deriving DecidableEq

/-- Whether a logged call is a call of the engine entry point `Commit`. -/
def EngineCall.isCommit : EngineCall → Bool
  | .commit _ => true
  | .restore _ => false

/-- Whether a logged call is a call of the engine entry point `Restore`. -/
def EngineCall.isRestore : EngineCall → Bool
  | .commit _ => false
  | .restore _ => true

/-- The two entry points of the patch engine, `Detour_i::Commit()` and
`Detour_i::Restore()`.  Each sees the engine fields and the state `σ` that is
private to the engine (saved bytes, trampoline, process memory), may change
both, and returns a `bool`. -/
structure Engine (σ : Type) where
  /-- The method `bool Detour_i::Commit()`. -/
  Commit : Detour_i → σ → Bool × Detour_i × σ
  /-- The method `bool Detour_i::Restore()`. -/
  Restore : Detour_i → σ → Bool × Detour_i × σ

/-- The record `Loader::Data`; only its member `Function` is used. -/
structure LoaderData where
  /-- The resolved address of the function. -/
  Function : Nat
deriving DecidableEq

/-- The loader as the facade consumes it: the synchronous lookup
`Loader::Load(module, function)`, which yields a null pointer when nothing is
found, and the error code `LOADER_TIMEOUT`. -/
structure Loader where
  /-- The function `Loader::Load`; `none` is the null pointer. -/
  Load : String → String → Option LoaderData
  /-- The constant `LOADER_TIMEOUT`. -/
  LOADER_TIMEOUT : Nat

/-- The hook object and everything around it. -/
structure World (σ : Type) where
  /-- The hook object. -/
  hook : Detour
  /-- Engine private state and process memory. -/
  machine : σ
  /-- Ghost log: the engine calls made so far, oldest first. -/
  calls : List EngineCall
  /-- Ghost log: the `(module, function)` pairs registered with
  `Loader::Wait`, oldest first. -/
  waits : List (String × String)

/-- A hook object placed in a process with no engine call and no registration
made yet. -/
def World.start {σ : Type} (d : Detour) (m : σ) : World σ :=
  { hook := d, machine := m, calls := [], waits := [] }

/-! ## The member functions of `Detour` -/

/-- The method `BYTE State()`. -/
def State {σ : Type} (w : World σ) : Nat :=
  w.hook._state

/-- The method `Detour* Length(int length)`. -/
def Length {σ : Type} (w : World σ) (length : Int) : World σ :=
  { w with hook := { w.hook with _detourer := { w.hook._detourer with _detourlen := length } } }

/-- The method `Detour* WithTrampoline(bool state)`. -/
def WithTrampoline {σ : Type} (w : World σ) (state : Bool) : World σ :=
  { w with hook := { w.hook with _detourer := { w.hook._detourer with _withTrampoline := state } } }

/-- The method `Detour* Type(BYTE type)`. -/
def Type_ {σ : Type} (w : World σ) (type : Nat) : World σ :=
  { w with hook := { w.hook with _detourer := { w.hook._detourer with _type := type } } }

/-- The method `bool Commit()`: refuses unless `_state` is `DETOUR_READY`,
otherwise hands over to the engine and returns what the engine returns. -/
def Commit {σ : Type} (E : Engine σ) (w : World σ) : Bool × World σ :=
  if w.hook._state ≠ DETOUR_READY then
    (false, w)
  else
    let r := E.Commit w.hook._detourer w.machine
    (r.1, { w with hook := { w.hook with _detourer := r.2.1 },
                   machine := r.2.2,
                   calls := w.calls ++ [EngineCall.commit w.hook._detourer] })

/-- The method `bool Restore()`: hands over to the engine. -/
def Restore {σ : Type} (E : Engine σ) (w : World σ) : Bool × World σ :=
  let r := E.Restore w.hook._detourer w.machine
  (r.1, { w with hook := { w.hook with _detourer := r.2.1 },
                 machine := r.2.2,
                 calls := w.calls ++ [EngineCall.restore w.hook._detourer] })

/-- Modelled from the spec: `Loader::Wait(module, function, callback)` belongs
to the loader, an external collaborator.  It registers the deferred resolution
and returns; the callback fires later, once, from the loader. -/
def Loader_Wait {σ : Type} (w : World σ) (module function : String) : World σ :=
  { w with waits := w.waits ++ [(module, function)] }

/-- The method `void Wait(char* module, char* function, BYTE* dst)`. -/
def Wait {σ : Type} (w : World σ) (module function : String) (dst : Nat) : World σ :=
  let w1 : World σ :=
    { w with hook := { _state := DETOUR_WAITING,
                       _detourer := { w.hook._detourer with _dst := dst } } }
  Loader_Wait w1 module function

/-- The method `void Load(char* module, char* function, BYTE* dst)`.  The
result of the inner `Commit()` is dropped, as in the source. -/
def Load {σ : Type} (E : Engine σ) (L : Loader) (w : World σ)
    (module function : String) (dst : Nat) : World σ :=
  let w1 : World σ :=
    { w with hook := { w.hook with _detourer := { w.hook._detourer with _dst := dst } } }
  match L.Load module function with
  | none => w1
  | some data =>
    let w2 : World σ :=
      { w1 with hook := { _state := DETOUR_READY,
                          _detourer := { w1.hook._detourer with _src := data.Function } } }
    (Commit E w2).2

/-- The callback `static void Wait_i(Detour* detour, Loader::Data* data)`.
`lastError` is the value of `GetLastError()` when the callback runs and `data`
is the pointer it receives (`none` for a null pointer).  Dereferencing a null
`data` has no defined result, hence `none`. -/
def Wait_i {σ : Type} (E : Engine σ) (L : Loader) (lastError : Nat) (w : World σ)
    (data : Option LoaderData) : Option (World σ) :=
  if lastError = L.LOADER_TIMEOUT then
    some w
  else
    match data with
    | none => none
    | some d =>
      let w1 : World σ :=
        { w with hook := { _state := DETOUR_READY,
                           _detourer := { w.hook._detourer with _src := d.Function } } }
      some (Commit E w1).2

/-! ## The patch engine of the design document

`Detour_i::Commit` and `Detour_i::Restore` are declared in `Detour_i.h`.  The
engine below follows the redirection algorithm of the design document step by
step.  Everything that document leaves to the platform (instruction analysis,
page protection, instruction encodings, the allocator) is a field of
`Platform`. -/

/-- Process memory: the byte stored at each address. -/
abbrev Memory := Nat → Nat

/-- The `n` bytes stored from address `a` on. -/
def readBytes (m : Memory) (a n : Nat) : List Nat :=
  (List.range n).map (fun i => m (a + i))

/-- Memory after the bytes `bs` have been stored from address `a` on. -/
def writeBytes (m : Memory) (a : Nat) (bs : List Nat) : Memory :=
  fun x => if a ≤ x ∧ x < a + bs.length then bs.getD (x - a) 0 else m x

/-- The first `n` bytes of `code`, filled up with `fill` when `code` is
shorter. -/
def padTo (n fill : Nat) (code : List Nat) : List Nat :=
  (code ++ List.replicate n fill).take n

/-- What the design document leaves to the platform. -/
structure Platform where
  /-- Number of bytes the redirection of a strategy occupies. -/
  footprint : Nat → Nat
  /-- The instruction boundary analyzer: given memory, an address and a
  minimum byte count, the first instruction boundary at or past that count,
  or nothing when no safe cut point lies within the scan window. -/
  analyze : Memory → Nat → Nat → Option Nat
  /-- Whether the range of the given address and length can be made writable. -/
  writable : Nat → Nat → Bool
  /-- The redirection code of a strategy at a source for a destination. -/
  redirect : Nat → Nat → Nat → List Nat
  /-- The no-op instruction used as padding. -/
  nop : Nat
  /-- Relocation of a copied prologue from its source address to the
  trampoline address; nothing when the prologue cannot be relocated. -/
  relocate : List Nat → Nat → Nat → Option (List Nat)
  /-- An unconditional branch placed at the first address to the second. -/
  branch : Nat → Nat → List Nat
  /-- The address of the executable region handed out for a trampoline. -/
  allocate : Nat

/-- Modelled from the spec: the state private to the engine of `Detour_i.h`
together with the memory of the process.  `savedBytes` is the copy of the
overwritten bytes and is present exactly while a patch is active;
`trampoline` is the allocated stub (entry address and code), owned by the
hook and kept apart from the memory of the target. -/
structure Machine where
  /-- Memory of the target process. -/
  mem : Memory
  /-- The bytes overwritten by the active patch, if any. -/
  savedBytes : Option (List Nat)
  /-- The trampoline of the active patch, if any. -/
  trampoline : Option (Nat × List Nat)

/-- A process in which no patch is active. -/
def Machine.fresh (m : Memory) : Machine :=
  { mem := m, savedBytes := none, trampoline := none }

/-- Modelled from the spec: step 1 of the redirection algorithm, which
`Detour_i.h` would implement.  A configured (positive) patch length is used as
it is; otherwise the analyzer walks instructions at the source until the
footprint of the strategy is covered. -/
def determineLength (P : Platform) (e : Detour_i) (mem : Memory) : Option Nat :=
  if 0 < e._detourlen then some e._detourlen.toNat
  else P.analyze mem e._src (P.footprint e._type)

/-- Modelled from the spec: `Detour_i::Commit` of `Detour_i.h`, steps 1 to 5
of the redirection algorithm.  It fails, touching nothing, when an address is
null, when no length can be determined, when the range cannot be made
writable, or when a requested trampoline cannot be built.  Otherwise it saves
exactly the bytes it is about to overwrite, builds the trampoline (relocated
bytes followed by a branch back to the first untouched instruction), writes the
redirection padded to the patch length, and records the length and the address
of the original entry. -/
def specCommit (P : Platform) (e : Detour_i) (M : Machine) : Bool × Detour_i × Machine :=
  if e._src = NULL ∨ e._dst = NULL then (false, e, M)
  else
    match determineLength P e M.mem with
    | none => (false, e, M)
    | some len =>
      if P.writable e._src len = false then (false, e, M)
      else
        let saved := readBytes M.mem e._src len
        let patched := writeBytes M.mem e._src (padTo len P.nop (P.redirect e._type e._src e._dst))
        if e._withTrampoline then
          match P.relocate saved e._src P.allocate with
          | none => (false, e, M)
          | some code =>
            (true,
             { e with _detourlen := (len : Int), _callee := P.allocate },
             { mem := patched, savedBytes := some saved,
               trampoline := some (P.allocate,
                 code ++ P.branch (P.allocate + code.length) (e._src + len)) })
        else
          (true,
           { e with _detourlen := (len : Int), _callee := e._src },
           { mem := patched, savedBytes := some saved, trampoline := none })

/-- Modelled from the spec: `Detour_i::Restore` of `Detour_i.h`, step 6 of the
redirection algorithm.  Without an active patch it does nothing and succeeds.
With one it writes the saved bytes back to the source address and releases the
trampoline; it fails only when that memory is no longer accessible. -/
def specRestore (P : Platform) (e : Detour_i) (M : Machine) : Bool × Detour_i × Machine :=
  match M.savedBytes with
  | none => (true, e, M)
  | some saved =>
    if P.writable e._src saved.length = false then (false, e, M)
    else (true, e, { mem := writeBytes M.mem e._src saved, savedBytes := none, trampoline := none })

/-- Modelled from the spec: the patch engine of `Detour_i.h` on a platform. -/
def specEngine (P : Platform) : Engine Machine :=
  { Commit := specCommit P, Restore := specRestore P }

/-! ## A concrete process used in the scenarios -/

/-- A 32 bit little endian word as four bytes. -/
def le32 (v : Nat) : List Nat :=
  [v % 256, v / 256 % 256, v / 65536 % 256, v / 16777216 % 256]

/-- A platform with x86 style encodings: `E9 rel32` for a branch,
`68 imm32; C3` for push and return, a raw pointer for a table slot.  Every
range except the null page is writable and every prologue relocates as it
is. -/
def demoPlatform : Platform :=
  { footprint := fun t => if t = DETOUR_RET then 6 else if t = DETOUR_MEM then 4 else 5,
    analyze := fun _ _ n => some n,
    writable := fun a _ => decide (4096 ≤ a),
    redirect := fun t src dst =>
      if t = DETOUR_RET then 104 :: le32 dst ++ [195]
      else if t = DETOUR_MEM then le32 dst
      else 233 :: le32 ((dst + 4294967296 - (src + 5)) % 4294967296),
    nop := 144,
    relocate := fun bs _ _ => some bs,
    branch := fun src dst => 233 :: le32 ((dst + 4294967296 - (src + 5)) % 4294967296),
    allocate := 1048576 }

/-- A memory image in which the byte at address `a` is `a % 251`. -/
def demoMemory : Memory :=
  fun a => a % 251

/-- A loader that knows the single function `user32.dll!MessageBoxA`, at
address `8192`. -/
def demoLoader : Loader :=
  { Load := fun m f => if m = "user32.dll" ∧ f = "MessageBoxA" then some { Function := 8192 } else none,
    LOADER_TIMEOUT := 1460 }

/-- The hook `Detour(8192, 12288)` in the demo process, configured with a
patch length of five bytes, a trampoline and the branch strategy. -/
def demoHook : World Machine :=
  Type_ (WithTrampoline (Length
    (World.start (Detour.createWith 8192 12288 2) (Machine.fresh demoMemory)) 5) true) DETOUR_JMP

/-- The hook `Detour()` in the demo process. -/
def demoFresh : World Machine :=
  World.start (Detour.create 2) (Machine.fresh demoMemory)

/-- Number of calls of the engine entry point `Commit` in a log. -/
def commitCount (calls : List EngineCall) : Nat :=
  (calls.filter EngineCall.isCommit).length

/-- Number of calls of the engine entry point `Restore` in a log. -/
def restoreCount (calls : List EngineCall) : Nat :=
  (calls.filter EngineCall.isRestore).length

end DetourBP

namespace DetourBP

/-! ## Commit is guarded by the state -/

/-- C1: on a hook whose state is not `DETOUR_READY`, `Commit` returns false,
makes no call into the engine, and leaves the state, the engine fields and the
engine private state (memory included) as they were. -/
theorem commit_rejected_unless_ready {σ : Type} (E : Engine σ) (w : World σ)
    (h : State w ≠ DETOUR_READY) :
    (Commit E w).1 = false ∧
    (Commit E w).2.calls = w.calls ∧
    State (Commit E w).2 = State w ∧
    (Commit E w).2.hook._detourer = w.hook._detourer ∧
    (Commit E w).2.machine = w.machine := by
  have hs : w.hook._state ≠ DETOUR_READY := h
  simp [Commit, hs]

/-- Witness for C1: the hook `Detour()` and a hook put in the waiting state. -/
theorem commit_rejected_unless_ready_witness :
    State demoFresh ≠ DETOUR_READY ∧
    ((Commit (specEngine demoPlatform) demoFresh).1 = false ∧
     (Commit (specEngine demoPlatform) demoFresh).2.calls = demoFresh.calls ∧
     State (Commit (specEngine demoPlatform) demoFresh).2 = State demoFresh ∧
     (Commit (specEngine demoPlatform) demoFresh).2.hook._detourer = demoFresh.hook._detourer ∧
     (Commit (specEngine demoPlatform) demoFresh).2.machine = demoFresh.machine) :=
  ⟨by decide, commit_rejected_unless_ready (specEngine demoPlatform) demoFresh (by decide)⟩

/-- C2, as stated, fails: the hook `Detour(8192, 12288)` is ready, its `Commit`
succeeds, and `State()` still reports `DETOUR_READY` afterwards. -/
theorem commit_success_state_counterexample :
    State demoHook = DETOUR_READY ∧
    (Commit (specEngine demoPlatform) demoHook).1 = true ∧
    ¬ (State (Commit (specEngine demoPlatform) demoHook).2 ≠ DETOUR_READY) := by
  decide

/-- C2, amended: on a ready hook `Commit`, successful or not, leaves the state
at `DETOUR_READY`; that is what `State()` reports afterwards. -/
theorem commit_keeps_state_ready {σ : Type} (E : Engine σ) (w : World σ)
    (h : State w = DETOUR_READY) :
    State (Commit E w).2 = DETOUR_READY := by
  have hs : w.hook._state = DETOUR_READY := h
  simp [Commit, State, hs]

/-- Witness for C2 amended, at the hook `Detour(8192, 12288)`. -/
theorem commit_keeps_state_ready_witness :
    State demoHook = DETOUR_READY ∧
    State (Commit (specEngine demoPlatform) demoHook).2 = DETOUR_READY :=
  ⟨by decide, commit_keeps_state_ready (specEngine demoPlatform) demoHook (by decide)⟩

/-! ## Restore always reaches the engine -/

/-- C3, as stated, fails: on the never committed hook `Detour()` the facade
does call the engine entry point `Restore`, and so does each of two
consecutive `Restore` calls that follow a `Commit`. -/
theorem restore_invokes_engine_counterexample :
    demoFresh.machine.savedBytes = none ∧
    restoreCount demoFresh.calls = 0 ∧
    restoreCount (Restore (specEngine demoPlatform) demoFresh).2.calls = 1 ∧
    restoreCount (Restore (specEngine demoPlatform)
      (Restore (specEngine demoPlatform)
        (Commit (specEngine demoPlatform) demoHook).2).2).2.calls = 2 := by
  decide

/-- C3, amended: on a hook that holds no active patch, `Restore` reports
success and writes nothing (state, engine fields, memory and engine private
state stay as they were), and it does so by calling the engine entry point
`Restore` exactly once, which is a no-op there. -/
theorem restore_without_patch_is_noop (P : Platform) (w : World Machine)
    (h : w.machine.savedBytes = none) :
    (Restore (specEngine P) w).1 = true ∧
    (Restore (specEngine P) w).2.hook = w.hook ∧
    (Restore (specEngine P) w).2.machine = w.machine ∧
    (Restore (specEngine P) w).2.calls = w.calls ++ [EngineCall.restore w.hook._detourer] := by
  simp [Restore, specEngine, specRestore, h]

/-- Witness for C3 amended: the second of two consecutive `Restore` calls
after a `Commit` of the hook `Detour(8192, 12288)`. -/
theorem restore_without_patch_is_noop_witness :
    (Restore (specEngine demoPlatform)
      (Commit (specEngine demoPlatform) demoHook).2).2.machine.savedBytes = none ∧
    ((Restore (specEngine demoPlatform) (Restore (specEngine demoPlatform)
        (Commit (specEngine demoPlatform) demoHook).2).2).1 = true ∧
     (Restore (specEngine demoPlatform) (Restore (specEngine demoPlatform)
        (Commit (specEngine demoPlatform) demoHook).2).2).2.hook =
       (Restore (specEngine demoPlatform)
        (Commit (specEngine demoPlatform) demoHook).2).2.hook ∧
     (Restore (specEngine demoPlatform) (Restore (specEngine demoPlatform)
        (Commit (specEngine demoPlatform) demoHook).2).2).2.machine =
       (Restore (specEngine demoPlatform)
        (Commit (specEngine demoPlatform) demoHook).2).2.machine ∧
     (Restore (specEngine demoPlatform) (Restore (specEngine demoPlatform)
        (Commit (specEngine demoPlatform) demoHook).2).2).2.calls =
       (Restore (specEngine demoPlatform)
        (Commit (specEngine demoPlatform) demoHook).2).2.calls ++
       [EngineCall.restore (Restore (specEngine demoPlatform)
        (Commit (specEngine demoPlatform) demoHook).2).2.hook._detourer]) :=
  ⟨by decide,
   restore_without_patch_is_noop demoPlatform
     (Restore (specEngine demoPlatform) (Commit (specEngine demoPlatform) demoHook).2).2
     (by decide)⟩

/-! ## Configuration is never guarded -/

/-- C4, as stated, fails: after the successful `Commit` of the hook
`Detour(8192, 12288)`, with no `Restore`, the calls `Length(9)`,
`WithTrampoline(false)` and `Type(DETOUR_RET)` each change the engine field
they set. -/
theorem configure_after_commit_counterexample :
    State demoHook = DETOUR_READY ∧
    (Commit (specEngine demoPlatform) demoHook).1 = true ∧
    (Commit (specEngine demoPlatform) demoHook).2.hook._detourer._detourlen = 5 ∧
    (Length (Commit (specEngine demoPlatform) demoHook).2 9).hook._detourer._detourlen = 9 ∧
    (Commit (specEngine demoPlatform) demoHook).2.hook._detourer._withTrampoline = true ∧
    (WithTrampoline (Commit (specEngine demoPlatform) demoHook).2
      false).hook._detourer._withTrampoline = false ∧
    (Commit (specEngine demoPlatform) demoHook).2.hook._detourer._type = DETOUR_JMP ∧
    (Type_ (Commit (specEngine demoPlatform) demoHook).2 DETOUR_RET).hook._detourer._type
      = DETOUR_RET := by
  decide

/-- C4, amended: on a hook on which `Commit` has succeeded and no `Restore`
has followed, each configuration call is accepted as in any other state:
`Length`, `WithTrampoline` and `Type` store their argument in the engine field
they set and leave the other engine fields, the state, the engine private
state and the call log as they were. -/
theorem configure_after_commit_accepted {σ : Type} (E : Engine σ) (w : World σ)
    (length : Int) (state : Bool) (type : Nat)
    (h : State w = DETOUR_READY) (_hc : (Commit E w).1 = true) :
    Length (Commit E w).2 length =
      { (Commit E w).2 with hook := { (Commit E w).2.hook with
          _detourer := { (Commit E w).2.hook._detourer with _detourlen := length } } } ∧
    WithTrampoline (Commit E w).2 state =
      { (Commit E w).2 with hook := { (Commit E w).2.hook with
          _detourer := { (Commit E w).2.hook._detourer with _withTrampoline := state } } } ∧
    Type_ (Commit E w).2 type =
      { (Commit E w).2 with hook := { (Commit E w).2.hook with
          _detourer := { (Commit E w).2.hook._detourer with _type := type } } } ∧
    (Length (Commit E w).2 length).hook._detourer._detourlen = length ∧
    (WithTrampoline (Commit E w).2 state).hook._detourer._withTrampoline = state ∧
    (Type_ (Commit E w).2 type).hook._detourer._type = type ∧
    State (Length (Commit E w).2 length) = DETOUR_READY ∧
    State (WithTrampoline (Commit E w).2 state) = DETOUR_READY ∧
    State (Type_ (Commit E w).2 type) = DETOUR_READY := by
  have hs : w.hook._state = DETOUR_READY := h
  have hk : (Commit E w).2.hook._state = DETOUR_READY := by simp [Commit, hs]
  exact ⟨rfl, rfl, rfl, rfl, rfl, rfl, hk, hk, hk⟩

/-- Witness for C4 amended: `Length(9)`, `WithTrampoline(false)` and
`Type(DETOUR_RET)` after the `Commit` of the hook `Detour(8192, 12288)`. -/
theorem configure_after_commit_accepted_witness :
    (State demoHook = DETOUR_READY ∧ (Commit (specEngine demoPlatform) demoHook).1 = true) ∧
    (Length (Commit (specEngine demoPlatform) demoHook).2 9).hook._detourer._detourlen = 9 ∧
    (WithTrampoline (Commit (specEngine demoPlatform) demoHook).2
      false).hook._detourer._withTrampoline = false ∧
    (Type_ (Commit (specEngine demoPlatform) demoHook).2 DETOUR_RET).hook._detourer._type
      = DETOUR_RET :=
  have t := configure_after_commit_accepted (specEngine demoPlatform) demoHook 9 false
    DETOUR_RET (by decide) (by decide)
  ⟨⟨by decide, by decide⟩, t.2.2.2.1, t.2.2.2.2.1, t.2.2.2.2.2.1⟩

/-! ## Deferred resolution -/

/-- C5: after `Wait(module, function, dst)` the state is `DETOUR_WAITING` and
the engine destination is `dst`; when the callback then fires with
`GetLastError()` equal to `LOADER_TIMEOUT` it returns at once: the state is
still `DETOUR_WAITING`, the source address is the one from before the `Wait`,
and no call into the engine is made. -/
theorem wait_then_timeout {σ : Type} (E : Engine σ) (L : Loader) (w : World σ)
    (module function : String) (dst : Nat) (data : Option LoaderData) :
    State (Wait w module function dst) = DETOUR_WAITING ∧
    (Wait w module function dst).hook._detourer._dst = dst ∧
    (Wait w module function dst).waits = w.waits ++ [(module, function)] ∧
    (∃ w2, Wait_i E L L.LOADER_TIMEOUT (Wait w module function dst) data = some w2 ∧
      State w2 = DETOUR_WAITING ∧
      w2.hook._detourer._src = w.hook._detourer._src ∧
      w2.hook._detourer._dst = dst ∧
      w2.calls = w.calls ∧
      w2.machine = w.machine) := by
  refine ⟨rfl, rfl, rfl, Wait w module function dst, ?_, rfl, rfl, rfl, rfl, rfl⟩
  simp [Wait_i]

/-- C6: when the callback fires with `GetLastError()` different from
`LOADER_TIMEOUT` and data holding the address `a`, then, whatever the state of
the hook was, the engine source becomes `a`, the state becomes `DETOUR_READY`,
the guard of `Commit` lets the call through, and the engine entry point
`Commit` is called exactly once, on engine fields whose source is `a`. -/
theorem wait_callback_commits {σ : Type} (E : Engine σ) (L : Loader) (lastError : Nat)
    (w : World σ) (a : Nat) (h : lastError ≠ L.LOADER_TIMEOUT) :
    ∃ w2, Wait_i E L lastError w (some { Function := a }) = some w2 ∧
      w2.calls = w.calls ++ [EngineCall.commit { w.hook._detourer with _src := a }] ∧
      commitCount w2.calls = commitCount w.calls + 1 ∧
      restoreCount w2.calls = restoreCount w.calls ∧
      State w2 = DETOUR_READY ∧
      w2.hook._detourer = (E.Commit { w.hook._detourer with _src := a } w.machine).2.1 ∧
      w2.machine = (E.Commit { w.hook._detourer with _src := a } w.machine).2.2 := by
  refine ⟨(Commit E ⟨⟨{ w.hook._detourer with _src := a }, DETOUR_READY⟩,
    w.machine, w.calls, w.waits⟩).2, ?_, ?_⟩
  · simp only [Wait_i, if_neg h]
  · simp [Commit, State, commitCount, restoreCount, List.filter_append,
      EngineCall.isCommit, EngineCall.isRestore]

/-- Witness for C6: the callback fires without error on the waiting hook
`Detour().Wait("user32.dll", "MessageBoxA", 12288)` with the address `8192`. -/
theorem wait_callback_commits_witness :
    (0 : Nat) ≠ demoLoader.LOADER_TIMEOUT ∧
    ∃ w2, Wait_i (specEngine demoPlatform) demoLoader 0
        (Wait demoFresh "user32.dll" "MessageBoxA" 12288) (some { Function := 8192 }) = some w2 ∧
      w2.calls = (Wait demoFresh "user32.dll" "MessageBoxA" 12288).calls ++
        [EngineCall.commit
          { (Wait demoFresh "user32.dll" "MessageBoxA" 12288).hook._detourer with _src := 8192 }] ∧
      commitCount w2.calls = 1 ∧
      State w2 = DETOUR_READY :=
  have t := wait_callback_commits (specEngine demoPlatform) demoLoader 0
    (Wait demoFresh "user32.dll" "MessageBoxA" 12288) 8192 (by decide)
  ⟨by decide, t.elim (fun w2 hw => ⟨w2, hw.1, hw.2.1, hw.2.2.1, hw.2.2.2.2.1⟩)⟩

/-! ## Synchronous resolution -/

/-- C7, as stated, fails: `Load` returns nothing, and on the ready hook
`Detour(8192, 12288)` a lookup that finds nothing and a lookup that finds the
function (followed by a `Commit` that the engine refuses for the null
destination) leave the same hook object, the same state and the same memory
behind. -/
theorem load_failure_not_reported_counterexample :
    demoLoader.Load "kernel32.dll" "Beep" = none ∧
    demoLoader.Load "user32.dll" "MessageBoxA" = some { Function := 8192 } ∧
    (Load (specEngine demoPlatform) demoLoader demoHook "kernel32.dll" "Beep" NULL).hook =
      (Load (specEngine demoPlatform) demoLoader demoHook "user32.dll" "MessageBoxA" NULL).hook ∧
    State (Load (specEngine demoPlatform) demoLoader demoHook "kernel32.dll" "Beep" NULL) =
      DETOUR_READY ∧
    State (Load (specEngine demoPlatform) demoLoader demoHook "user32.dll" "MessageBoxA" NULL) =
      DETOUR_READY ∧
    (Load (specEngine demoPlatform) demoLoader demoHook "kernel32.dll" "Beep" NULL).machine.mem =
      (Load (specEngine demoPlatform) demoLoader demoHook "user32.dll" "MessageBoxA"
        NULL).machine.mem := by
  refine ⟨by decide, by decide, by decide, by decide, by decide, rfl⟩

/-- C7, amended: when `Loader::Load` finds nothing, `Load` stores `dst` as the
engine destination and does nothing else: it returns no outcome, the state is
the one from before the call, the other engine fields, memory and the engine
private state are untouched and no call into the engine is made.  A load that
finds the function always ends in `DETOUR_READY`, so `State()` tells the two
apart exactly on a hook that was not ready before the call. -/
theorem load_not_found_only_sets_destination {σ : Type} (E : Engine σ) (L : Loader)
    (w : World σ) (module function : String) (dst : Nat)
    (h : L.Load module function = none) :
    (Load E L w module function dst).hook =
      { w.hook with _detourer := { w.hook._detourer with _dst := dst } } ∧
    State (Load E L w module function dst) = State w ∧
    (Load E L w module function dst).machine = w.machine ∧
    (Load E L w module function dst).calls = w.calls ∧
    (Load E L w module function dst).waits = w.waits ∧
    (∀ (L2 : Loader) (data : LoaderData), L2.Load module function = some data →
      State (Load E L2 w module function dst) = DETOUR_READY) := by
  refine ⟨?_, ?_, ?_, ?_, ?_, ?_⟩
  · simp [Load, h]
  · simp [Load, h, State]
  · simp [Load, h]
  · simp [Load, h]
  · simp [Load, h]
  · intro L2 data h2
    simp [Load, h2, Commit, State]

/-- Witness for C7 amended: the hook `Detour()` and a module the loader does
not know. -/
theorem load_not_found_only_sets_destination_witness :
    demoLoader.Load "kernel32.dll" "Beep" = none ∧
    State (Load (specEngine demoPlatform) demoLoader demoFresh "kernel32.dll" "Beep" 12288) =
      State demoFresh ∧
    (Load (specEngine demoPlatform) demoLoader demoFresh "kernel32.dll" "Beep" 12288).calls =
      demoFresh.calls :=
  have t := load_not_found_only_sets_destination (specEngine demoPlatform) demoLoader
    demoFresh "kernel32.dll" "Beep" 12288 (by decide)
  ⟨by decide, t.2.1, t.2.2.2.1⟩

/-! ## Construction -/

/-- C8: the hook `Detour()` has state `DETOUR_NONE` and an engine with null
source and destination; the hook `Detour(src, dst)` has state `DETOUR_READY`
and an engine holding exactly `src` and `dst`. -/
theorem constructors_set_state_and_addresses {σ : Type} (m : σ) (argc src dst : Nat) :
    State (World.start (Detour.create argc) m) = DETOUR_NONE ∧
    (Detour.create argc)._detourer._src = NULL ∧
    (Detour.create argc)._detourer._dst = NULL ∧
    State (World.start (Detour.createWith src dst argc) m) = DETOUR_READY ∧
    (Detour.createWith src dst argc)._detourer._src = src ∧
    (Detour.createWith src dst argc)._detourer._dst = dst :=
  ⟨rfl, rfl, rfl, rfl, rfl, rfl⟩

/-! ## Repeated Commit -/

/-- C9, as stated, fails: on the hook `Detour(8192, 12288)` the first `Commit`
succeeds, no `Restore` follows, and the second `Commit` is not rejected: it
returns true and the engine entry point `Commit` has then been called twice
and `Restore` never. -/
theorem second_commit_counterexample :
    State demoHook = DETOUR_READY ∧
    (Commit (specEngine demoPlatform) demoHook).1 = true ∧
    (Commit (specEngine demoPlatform) (Commit (specEngine demoPlatform) demoHook).2).1 = true ∧
    commitCount (Commit (specEngine demoPlatform)
      (Commit (specEngine demoPlatform) demoHook).2).2.calls = 2 ∧
    restoreCount (Commit (specEngine demoPlatform)
      (Commit (specEngine demoPlatform) demoHook).2).2.calls = 0 := by
  decide

/-- C9, amended: on a ready hook a `Commit` leaves the state at `DETOUR_READY`,
so a second `Commit` passes the guard as the first did: it calls the engine
entry point `Commit` again and returns what the engine returns.  Two
consecutive calls of `Commit` make two engine calls. -/
theorem second_commit_reaches_engine {σ : Type} (E : Engine σ) (w : World σ)
    (h : State w = DETOUR_READY) :
    State (Commit E w).2 = DETOUR_READY ∧
    (Commit E (Commit E w).2).1 =
      (E.Commit (Commit E w).2.hook._detourer (Commit E w).2.machine).1 ∧
    (Commit E (Commit E w).2).2.calls =
      w.calls ++ [EngineCall.commit w.hook._detourer,
                  EngineCall.commit (Commit E w).2.hook._detourer] ∧
    commitCount (Commit E (Commit E w).2).2.calls = commitCount w.calls + 2 := by
  have hs : w.hook._state = DETOUR_READY := h
  simp [Commit, State, hs, commitCount, List.filter_append, EngineCall.isCommit]

/-- Witness for C9 amended, at the hook `Detour(8192, 12288)`. -/
theorem second_commit_reaches_engine_witness :
    State demoHook = DETOUR_READY ∧
    commitCount (Commit (specEngine demoPlatform)
      (Commit (specEngine demoPlatform) demoHook).2).2.calls = commitCount demoHook.calls + 2 :=
  ⟨by decide,
   (second_commit_reaches_engine (specEngine demoPlatform) demoHook (by decide)).2.2.2⟩

/-! ## The round trip of Commit and Restore -/

end DetourBP
